import Mathlib

/-!
Shallow embedding of the pip module `src/pip/_internal/pyproject.py`.

The module decides, for one package, whether it is built PEP 517-style
(isolated build with a declared backend) or with the legacy `setup.py`
code path, and which build requirements apply.  We embed the two pure
policy functions:

* `get_build_system_requires` — validates and extracts the declared
  `build-system.requires` list;
* `resolve_pyproject_toml` — the ordered decision tree settling the
  `use_pep517` flag, plus the defaulting of backend and check list.

Python values reachable inside the `build-system` TOML table are
modelled by `PyVal`; the table itself (`Dict[str, Any]`) by an
association list with unique keys, as produced by a TOML parser.
Python exceptions become `Except PipError`; the single
`logger.warning` call becomes an explicit list of warning messages in
the result, so that the warning-emitting region is provable.  The
`use_pep517` argument is typed `Optional[bool]` in the source but can
at runtime carry the integer `0` (from `strtobool`), so it is embedded
as `Option PyVal` and tested by Python truthiness, exactly as the
source tests it.
-/

namespace PipPyproject

/-- A Python value as it can occur inside a parsed `build-system`
TOML table (or as the runtime value of the `use_pep517` flag). -/
inductive PyVal where
  | str (s : String)
  | int (n : Int)
  | bool (b : Bool)
  | list (xs : List PyVal)

/-- The parsed `[build-system]` table: a string-keyed mapping,
insertion ordered, with unique keys (TOML tables cannot repeat keys). -/
abbrev BuildSystem := List (String × PyVal)

/-- The one exception class raised by this module
(`pip._internal.exceptions.InstallationError`), carrying its message. -/
inductive PipError where
  | installationError (message : String)

/-- The `pep517_data` value: the `(backend, check)` pair.  The backend component
is whatever value `build_system.get("build-backend")` produced (the
source does not coerce it to a string), or the defaulted backend id. -/
abbrev Pep517Data := PyVal × List String

/-- The `(requires, pep517_data)` result tuple of
`resolve_pyproject_toml`. -/
abbrev ResolutionOutput := Option (List String) × Option Pep517Data

/-- Python truthiness of a `PyVal` (`bool(v)`). -/
def truthy : PyVal → Bool
  | PyVal.str s => !(s == "")
  | PyVal.int n => !(n == 0)
  | PyVal.bool b => b
  | PyVal.list xs => !xs.isEmpty

/-- Python truthiness of an `Optional` value: `None` is falsy. -/
def optTruthy : Option PyVal → Bool
  | Option.none => false
  | some v => truthy v

/-- The test `use_pep517 is not None and not use_pep517` from the
source: an explicit request to disable PEP 517 processing. -/
def isExplicitFalse : Option PyVal → Bool
  | Option.none => false
  | some v => !truthy v

/-- Dictionary lookup `d.get(k)` on the association list. -/
def lookup (bs : BuildSystem) (k : String) : Option PyVal :=
  (bs.find? (fun p => p.1 == k)).map (fun p => p.2)

/-- Membership test `k in d`. -/
def hasKey (bs : BuildSystem) (k : String) : Bool :=
  bs.any (fun p => p.1 == k)

/-- The test `isinstance(item, str)`. -/
def isStr : PyVal → Bool
  | PyVal.str _ => true
  | _ => false

/-- The source predicate `_is_list_of_str(obj)`: `isinstance(obj, list) and
all(isinstance(item, str) for item in obj)`. -/
def is_list_of_str : PyVal → Bool
  | PyVal.list xs => xs.all isStr
  | _ => false

/-- The string payload of a `PyVal.str`; only applied to values known
to be strings. -/
def strOf : PyVal → String
  | PyVal.str s => s
  | _ => ""

/-- Underlying `List String` of a value satisfying `is_list_of_str`. -/
def strListOf : PyVal → List String
  | PyVal.list xs => xs.map strOf
  | _ => []

/-- Python `repr` of a `PyVal` (exact for simple strings, which is
what pip feeds it); used by `str.format` with `{!r}` conversions. -/
def pyRepr : PyVal → String
  | PyVal.str s => "\x27" ++ s ++ "\x27"
  | PyVal.int n => toString n
  | PyVal.bool true => "True"
  | PyVal.bool false => "False"
  | PyVal.list xs => "[" ++ pyReprSep xs ++ "]"
where
  pyReprSep : List PyVal → String
    | [] => ""
    | [x] => pyRepr x
    | x :: y :: xs => pyRepr x ++ ", " ++ pyReprSep (y :: xs)

/-- Python `str` of a `PyVal` (`str.format` with a plain `{}`). -/
def pyStr : PyVal → String
  | PyVal.str s => s
  | v => pyRepr v

/-- The helper `make_editable_error(req_name, reason)`: builds the
InstallationError used for the editable-mode failures. -/
def make_editable_error (req_name reason : String) : PipError :=
  PipError.installationError
    ("Error installing " ++ pyRepr (PyVal.str req_name) ++
     ": editable mode is not supported for " ++
     "pyproject.toml-style projects. This project is being processed " ++
     "as pyproject.toml-style because " ++ reason ++ ". " ++
     "See PEP 517 for the relevant specification.")

/-- The PEP 518 non-compliance error template of
`get_build_system_requires`. -/
def pep518ErrorMessage (package reason : String) : String :=
  package ++ " has a pyproject.toml file that does not comply " ++
    "with PEP 518: " ++ reason

/-- Reason text for a `build-system` table without a `requires` key. -/
def missingRequiresReason : String :=
  "it has a \x27build-system\x27 table but not " ++
    "\x27build-system.requires\x27 which is mandatory in the table"

/-- Reason text for a `requires` value that is not a list of strings. -/
def notListOfStrReason : String :=
  "\x27build-system.requires\x27 is not a list of strings."

/-- The validator `get_build_system_requires(build_system, req_name)`: `None` input
gives `None`; a table without `requires` or with a non-list-of-strings
`requires` raises `InstallationError`; otherwise the declared list is
returned verbatim. -/
def get_build_system_requires (build_system : Option BuildSystem)
    (req_name : String) : Except PipError (Option (List String)) :=
  match build_system with
  | Option.none => Except.ok Option.none
  | some bs =>
    match lookup bs "requires" with
    | Option.none =>
      Except.error (PipError.installationError
        (pep518ErrorMessage req_name missingRequiresReason))
    | some requires =>
      if is_list_of_str requires then
        Except.ok (some (strListOf requires))
      else
        Except.error (PipError.installationError
          (pep518ErrorMessage req_name notListOfStrReason))

/-- The default backend id used when no backend is declared. -/
def defaultBackend : String := "setuptools.build_meta:__legacy__"

/-- The default requirements injected alongside the default backend. -/
def defaultRequires : List String := ["setuptools>=40.8.0", "wheel"]

/-- The condition of the third branch:
`build_system and "build-backend" in build_system`. -/
def bsHasBackend : Option BuildSystem → Bool
  | some bs => !bs.isEmpty && hasKey bs "build-backend"
  | Option.none => false

/-- The subscript access `build_system["build-backend"]`, used only
when the key exists. -/
def backendValue : Option BuildSystem → PyVal
  | some bs => (lookup bs "build-backend").getD (PyVal.str "")
  | Option.none => PyVal.str ""

/-- The access `build_system.get("build-backend")` lifted over the optional
table; `none` when the table is absent or lacks the key. -/
def declaredBackend : Option BuildSystem → Option PyVal
  | some bs => lookup bs "build-backend"
  | Option.none => Option.none

/-- Error message of the long editable failure in the third branch
(declared backend, editable, `use_pep517 is None`). -/
def editableBackendErrorMessage (req_name : String) : String :=
  "Error installing " ++ pyRepr (PyVal.str req_name) ++
    ": editable mode is not supported " ++
    "for pyproject.toml-style projects. " ++
    "This project is pyproject.toml-style because it has a " ++
    "pyproject.toml file and a \"build-backend\" key for the " ++
    "[build-system] table, but editable mode is undefined " ++
    "for pyproject.toml-style projects. " ++
    "Since the project has a setup.py, you may pass " ++
    "--no-use-pep517 to opt out of pyproject.toml-style " ++
    "processing. However, this is an unsupported combination. " ++
    "See PEP 517 for details on pyproject.toml-style projects."

/-- Message of the one `logger.warning` call in the module (declared
backend, editable, PEP 517 explicitly disabled). -/
def editableBackendWarning (req_name : String) : String :=
  "Installing " ++ pyRepr (PyVal.str req_name) ++
    " in editable mode, which is not supported " ++
    "for pyproject.toml-style projects: " ++
    "this project is pyproject.toml-style because it has a " ++
    "pyproject.toml file and a \"build-backend\" key for the " ++
    "[build-system] table, but editable mode is undefined " ++
    "for pyproject.toml-style projects. " ++
    "See PEP 517 for details on pyproject.toml-style projects."

/-- Error message of the editable failure in the fourth branch
(pyproject.toml present, no declared backend, `use_pep517 is None`). -/
def noBackendEditableErrorMessage (req_name : String) : String :=
  "Error installing " ++ pyRepr (PyVal.str req_name) ++
    ": editable mode is not supported for " ++
    "pyproject.toml-style projects. pip is processing this " ++
    "project as pyproject.toml-style because it has a " ++
    "pyproject.toml file. Since the project has a setup.py and " ++
    "the pyproject.toml has no \"build-backend\" key for the " ++
    "[build-system] table, you may pass --no-use-pep517 to opt " ++
    "out of pyproject.toml-style processing. " ++
    "See PEP 517 for details on pyproject.toml-style projects."

/-- Error message raised when PEP 517 is explicitly disabled but the
project has no setup.py. -/
def disableNoSetupMessage : String :=
  "Disabling PEP 517 processing is invalid: " ++
    "project does not have a setup.py"

/-- Error message raised when PEP 517 is explicitly disabled but the
project declares a build backend. -/
def disableWithBackendMessage (backend : PyVal) : String :=
  "Disabling PEP 517 processing is invalid: " ++
    "project specifies a build backend of " ++ pyStr backend ++
    " in pyproject.toml"

/-- The ordered decision tree at the top of `resolve_pyproject_toml`
(source lines 140-216), settling the `use_pep517` flag.  On success it
returns the warnings emitted so far together with the settled value of
the local variable `use_pep517` (always non-`None` here, matching the
assert in the source). -/
def resolve_tree (build_system : Option BuildSystem)
    (has_pyproject has_setup : Bool) (use_pep517 : Option PyVal)
    (editable : Bool) (req_name : String) :
    Except PipError (List String × Option PyVal) :=
  if editable && optTruthy use_pep517 then
    Except.error (make_editable_error req_name
      "PEP 517 processing was explicitly requested")
  else if has_pyproject && !has_setup then
    if isExplicitFalse use_pep517 then
      Except.error (PipError.installationError disableNoSetupMessage)
    else if editable then
      Except.error (make_editable_error req_name
        "it has a pyproject.toml file and no setup.py")
    else
      Except.ok ([], some (PyVal.bool true))
  else if bsHasBackend build_system then
    if editable then
      if use_pep517.isNone then
        Except.error (PipError.installationError
          (editableBackendErrorMessage req_name))
      else
        -- `assert not use_pep517` holds: the first branch handled
        -- editable with a truthy flag.
        Except.ok ([editableBackendWarning req_name], use_pep517)
    else if isExplicitFalse use_pep517 then
      Except.error (PipError.installationError
        (disableWithBackendMessage (backendValue build_system)))
    else
      Except.ok ([], some (PyVal.bool true))
  else if use_pep517.isNone then
    if has_pyproject && editable then
      Except.error (PipError.installationError
        (noBackendEditableErrorMessage req_name))
    else
      Except.ok ([], some (PyVal.bool has_pyproject))
  else
    Except.ok ([], use_pep517)

/-- The resolver `resolve_pyproject_toml(build_system, has_pyproject, has_setup,
use_pep517, editable, req_name)`.  The first component of the result
collects the warnings emitted (the source logs them through
`logger.warning`); the second is the returned tuple or the raised
exception. -/
def resolve_pyproject_toml (build_system : Option BuildSystem)
    (has_pyproject has_setup : Bool) (use_pep517 : Option PyVal)
    (editable : Bool) (req_name : String) :
    List String × Except PipError ResolutionOutput :=
  match resolve_tree build_system has_pyproject has_setup use_pep517
      editable req_name with
  | Except.error e => ([], Except.error e)
  | Except.ok (warnings, settled) =>
    match get_build_system_requires build_system req_name with
    | Except.error e => (warnings, Except.error e)
    | Except.ok requires =>
      if !optTruthy settled then
        (warnings, Except.ok (requires, Option.none))
      else
        match build_system with
        | Option.none =>
          -- requires and build_system are both overwritten with the
          -- defaults; the synthesized table has the default backend,
          -- so the later `backend is None` test is false and the
          -- check list stays empty.
          (warnings, Except.ok (some defaultRequires,
            some (PyVal.str defaultBackend, [])))
        | some bs =>
          match lookup bs "build-backend" with
          | Option.none =>
            (warnings, Except.ok (requires,
              some (PyVal.str defaultBackend, defaultRequires)))
          | some backend =>
            (warnings, Except.ok (requires, some (backend, [])))

/-- Holds `true` when the call raised (the result is an exception). -/
def raised (r : List String × Except PipError ResolutionOutput) : Bool :=
  match r.2 with
  | Except.error _ => true
  | Except.ok _ => false

end PipPyproject

namespace PipPyproject

/-! ## Helper lemmas -/

lemma hasKey_isEmpty_false {bs : BuildSystem} {k : String}
    (h : hasKey bs k = true) : bs.isEmpty = false := by
  cases bs with
  | nil => simp [hasKey] at h
  | cons a l => rfl

lemma map_strOf_of_all_isStr {xs : List PyVal} (h : xs.all isStr = true) :
    (xs.map strOf).map PyVal.str = xs := by
  induction xs with
  | nil => rfl
  | cons x xs ih =>
    simp only [List.all_cons, Bool.and_eq_true] at h
    obtain ⟨hx, hxs⟩ := h
    cases x <;> simp [isStr] at hx
    simp [strOf, ih hxs]

/-! ## Claim theorems -/

/-- C1 (amended): with the config file present, no setup.py, isolation
unspecified and editable false, a wholly absent build-system
declaration forces PEP 517 and yields the default requires and the
default legacy backend with an empty check list; a present-but-empty
declaration instead raises the missing-`requires` InstallationError. -/
theorem C1_empty_or_absent_declaration (rn : String) :
    resolve_pyproject_toml Option.none true false Option.none false rn
      = ([], Except.ok (some defaultRequires,
          some (PyVal.str defaultBackend, []))) ∧
    resolve_pyproject_toml (some []) true false Option.none false rn
      = ([], Except.error (PipError.installationError
          (pep518ErrorMessage rn missingRequiresReason))) :=
  ⟨rfl, rfl⟩

/-- C1 counterexample: with a present-but-empty build-system mapping
(no setup.py, isolation unspecified, not editable) the call raises the
missing-`requires` error instead of returning the claimed defaults. -/
theorem C1_counterexample :
    raised (resolve_pyproject_toml (some []) true false Option.none
        false "pkg") = true ∧
    resolve_pyproject_toml (some []) true false Option.none false "pkg"
      = ([], Except.error (PipError.installationError
          (pep518ErrorMessage "pkg" missingRequiresReason))) :=
  ⟨rfl, rfl⟩

/-- C5: an editable install together with a truthy `use_pep517` flag
raises the editable error immediately, for every file layout and every
declaration; the first branch of the decision tree takes precedence. -/
theorem C5_editable_with_pep517_enabled (b : Option BuildSystem)
    (hp hs : Bool) (v : PyVal) (rn : String) (hv : truthy v = true) :
    resolve_pyproject_toml b hp hs (some v) true rn
      = ([], Except.error (make_editable_error rn
          "PEP 517 processing was explicitly requested")) := by
  unfold resolve_pyproject_toml resolve_tree
  simp [optTruthy, hv]

/-- C5 witness. -/
theorem C5_witness :
    resolve_pyproject_toml Option.none false true
        (some (PyVal.bool true)) true "pkg"
      = ([], Except.error (make_editable_error "pkg"
          "PEP 517 processing was explicitly requested")) :=
  C5_editable_with_pep517_enabled Option.none false true
    (PyVal.bool true) "pkg" rfl

/-- C6: a declaration with `requires = ["foo"]` and no backend, with
both files present, isolation unspecified and not editable, resolves
to PEP 517 with the declared requires, the defaulted legacy backend,
and the non-empty default check list. -/
theorem C6_declared_requires_defaulted_backend (rn : String) :
    resolve_pyproject_toml
        (some [("requires", PyVal.list [PyVal.str "foo"])])
        true true Option.none false rn
      = ([], Except.ok (some ["foo"],
          some (PyVal.str defaultBackend, defaultRequires))) :=
  rfl

/-- C7: the requirements validator returns `none` for an absent
declaration, raises the missing-`requires` error when the key is
absent, raises the list-of-strings error when the value is malformed,
and otherwise returns the declared strings verbatim (the returned list
maps back to exactly the declared value, order preserved). -/
theorem C7_validator_spec (rn : String) :
    (get_build_system_requires Option.none rn
        = Except.ok Option.none) ∧
    (∀ bs : BuildSystem, lookup bs "requires" = Option.none →
      get_build_system_requires (some bs) rn
        = Except.error (PipError.installationError
            (pep518ErrorMessage rn missingRequiresReason))) ∧
    (∀ (bs : BuildSystem) (v : PyVal), lookup bs "requires" = some v →
      is_list_of_str v = false →
      get_build_system_requires (some bs) rn
        = Except.error (PipError.installationError
            (pep518ErrorMessage rn notListOfStrReason))) ∧
    (∀ (bs : BuildSystem) (xs : List PyVal),
      lookup bs "requires" = some (PyVal.list xs) →
      xs.all isStr = true →
      get_build_system_requires (some bs) rn
          = Except.ok (some (xs.map strOf)) ∧
        (xs.map strOf).map PyVal.str = xs) := by
  refine ⟨rfl, ?_, ?_, ?_⟩
  · intro bs h
    simp [get_build_system_requires, h]
  · intro bs v h hv
    simp [get_build_system_requires, h, hv]
  · intro bs xs h hall
    constructor
    · simp [get_build_system_requires, h, is_list_of_str, hall, strListOf]
    · exact map_strOf_of_all_isStr hall

/-- C7 witness. -/
theorem C7_witness :
    get_build_system_requires
        (some [("requires", PyVal.list [PyVal.str "a"])]) "pkg"
        = Except.ok (some ["a"]) ∧
      (["a"].map PyVal.str) = [PyVal.str "a"] := by
  have h := (C7_validator_spec "pkg").2.2.2
    [("requires", PyVal.list [PyVal.str "a"])] [PyVal.str "a"] rfl rfl
  exact ⟨h.1, h.2⟩

end PipPyproject

namespace PipPyproject

lemma hasKey_eq_lookup_isSome (bs : BuildSystem) (k : String) :
    hasKey bs k = (lookup bs k).isSome := by
  induction bs with
  | nil => rfl
  | cons a l ih =>
    by_cases h : a.1 == k
    · simp [hasKey, lookup, List.any_cons, List.find?_cons, h]
    · simp [hasKey, lookup, List.any_cons, List.find?_cons, h]
      simpa [hasKey, lookup] using ih

/-- C3 (amended): a declaration with a `build-backend` key but no
`requires` key, with the config file present and editable false,
raises the missing-`requires` InstallationError whenever the PEP 517
flag is unspecified or truthy; when the flag is explicitly disabled
the call instead raises the disabling error before requires-validation
(see the counterexample). -/
theorem C3_missing_requires_error (bs : BuildSystem) (hs : Bool)
    (u : Option PyVal) (rn : String)
    (hkey : hasKey bs "build-backend" = true)
    (hreq : lookup bs "requires" = Option.none)
    (hu : u = Option.none ∨ optTruthy u = true) :
    resolve_pyproject_toml (some bs) true hs u false rn
      = ([], Except.error (PipError.installationError
          (pep518ErrorMessage rn missingRequiresReason))) := by
  have hbs : bsHasBackend (some bs) = true := by
    simp [bsHasBackend, hasKey_isEmpty_false hkey, hkey]
  have hef : isExplicitFalse u = false := by
    rcases hu with h | h
    · rw [h]; rfl
    · cases u with
      | none => rfl
      | some v =>
        simp only [optTruthy] at h
        simp [isExplicitFalse, h]
  have hg : get_build_system_requires (some bs) rn
      = Except.error (PipError.installationError
          (pep518ErrorMessage rn missingRequiresReason)) := by
    simp [get_build_system_requires, hreq]
  cases hs with
  | false => simp [resolve_pyproject_toml, resolve_tree, hef, hg]
  | true => simp [resolve_pyproject_toml, resolve_tree, hbs, hef, hg]

/-- C3 witness. -/
theorem C3_witness :
    resolve_pyproject_toml
        (some [("build-backend", PyVal.str "pkg:build")])
        true true Option.none false "pkg"
      = ([], Except.error (PipError.installationError
          (pep518ErrorMessage "pkg" missingRequiresReason))) :=
  C3_missing_requires_error [("build-backend", PyVal.str "pkg:build")]
    true Option.none "pkg" rfl rfl (Or.inl rfl)

/-- C3 counterexample: with the PEP 517 flag explicitly disabled, the
same declaration raises the backend-disabling error, whose message
does not name the missing-`requires` rule. -/
theorem C3_counterexample :
    resolve_pyproject_toml
        (some [("build-backend", PyVal.str "pkg:build")])
        true true (some (PyVal.bool false)) false "pkg"
      = ([], Except.error (PipError.installationError
          (disableWithBackendMessage (PyVal.str "pkg:build")))) ∧
    disableWithBackendMessage (PyVal.str "pkg:build")
      ≠ pep518ErrorMessage "pkg" missingRequiresReason :=
  ⟨rfl, by decide⟩

/-- C10: editable mode with the PEP 517 flag explicitly disabled,
setup.py present and no declared backend is accepted silently: no
error, no warning, legacy-mode result carrying the validated declared
requires (or `none`). -/
theorem C10_editable_optout_silent (b : Option BuildSystem) (hp : Bool)
    (v : PyVal) (rn : String) (r : Option (List String))
    (hv : truthy v = false)
    (hnb : declaredBackend b = Option.none)
    (hg : get_build_system_requires b rn = Except.ok r) :
    resolve_pyproject_toml b hp true (some v) true rn
      = ([], Except.ok (r, Option.none)) := by
  have hbb : bsHasBackend b = false := by
    cases b with
    | none => rfl
    | some bs =>
      simp only [declaredBackend] at hnb
      simp [bsHasBackend, hasKey_eq_lookup_isSome, hnb]
  simp [resolve_pyproject_toml, resolve_tree, optTruthy, hv, hbb, hg,
    isExplicitFalse]

/-- C10 witness. -/
theorem C10_witness :
    resolve_pyproject_toml
        (some [("requires", PyVal.list [PyVal.str "foo"])])
        true true (some (PyVal.int 0)) true "pkg"
      = ([], Except.ok (some ["foo"], Option.none)) :=
  C10_editable_optout_silent
    (some [("requires", PyVal.list [PyVal.str "foo"])]) true
    (PyVal.int 0) "pkg" (some ["foo"]) rfl rfl rfl

end PipPyproject

namespace PipPyproject

/-- C2 (amended): whenever the call returns with `pep517_data`
present, the backend is either the (non-empty) default backend id or
exactly the value the declaration supplies under `build-backend`; a
declared backend is passed through unvalidated, so it can be the empty
string (see the counterexample). -/
theorem C2_backend_default_or_declared (b : Option BuildSystem)
    (hp hs : Bool) (u : Option PyVal) (e : Bool) (rn : String)
    (r : Option (List String)) (bk : PyVal) (c : List String)
    (hres : (resolve_pyproject_toml b hp hs u e rn).2
      = Except.ok (r, some (bk, c))) :
    bk = PyVal.str defaultBackend ∨ declaredBackend b = some bk := by
  cases htree : resolve_tree b hp hs u e rn with
  | error er => simp [resolve_pyproject_toml, htree] at hres
  | ok ws =>
    obtain ⟨w, s⟩ := ws
    simp only [resolve_pyproject_toml, htree] at hres
    cases hg : get_build_system_requires b rn <;>
      simp only [hg] at hres
    case error er => simp at hres
    case ok rq =>
      by_cases ht : optTruthy s = true
      · simp only [ht, Bool.not_true, if_neg] at hres
        cases b with
        | none =>
          simp at hres
          exact Or.inl hres.2.1.symm
        | some bs =>
          cases hlb : lookup bs "build-backend" with
          | none =>
            simp only [hlb] at hres
            simp at hres
            exact Or.inl hres.2.1.symm
          | some bk2 =>
            simp only [hlb] at hres
            simp at hres
            exact Or.inr (by simp [declaredBackend, hlb, hres.2.1])
      · simp only [Bool.not_eq_true] at ht
        simp [ht] at hres

/-- C2 witness. -/
theorem C2_witness :
    PyVal.str "pkg:build" = PyVal.str defaultBackend ∨
      declaredBackend (some [("requires", PyVal.list [PyVal.str "foo"]),
        ("build-backend", PyVal.str "pkg:build")])
        = some (PyVal.str "pkg:build") :=
  C2_backend_default_or_declared
    (some [("requires", PyVal.list [PyVal.str "foo"]),
      ("build-backend", PyVal.str "pkg:build")])
    true true Option.none false "pkg" (some ["foo"])
    (PyVal.str "pkg:build") [] rfl

/-- C2 counterexample: a declaration whose `build-backend` value is
the empty string is returned verbatim, so `pep517_data` is present
with an empty backend string. -/
theorem C2_counterexample :
    (resolve_pyproject_toml (some [("requires", PyVal.list []),
        ("build-backend", PyVal.str "")]) true true Option.none false
        "pkg").2
      = Except.ok (some [], some (PyVal.str "", [])) ∧
    strOf (PyVal.str "") = "" :=
  ⟨rfl, rfl⟩

/-- C8: for every call that returns without raising, `pep517_data` is
present if and only if the decision tree settled the `use_pep517`
flag to a truthy value. -/
theorem C8_pep517_iff_enabled (b : Option BuildSystem)
    (hp hs : Bool) (u : Option PyVal) (e : Bool) (rn : String)
    (w : List String) (s : Option PyVal) (r : Option (List String))
    (p : Option Pep517Data)
    (htree : resolve_tree b hp hs u e rn = Except.ok (w, s))
    (hres : (resolve_pyproject_toml b hp hs u e rn).2
      = Except.ok (r, p)) :
    p ≠ Option.none ↔ optTruthy s = true := by
  simp only [resolve_pyproject_toml, htree] at hres
  cases hg : get_build_system_requires b rn <;>
    simp only [hg] at hres
  case error er => simp at hres
  case ok rq =>
    by_cases ht : optTruthy s = true
    · simp only [ht, Bool.not_true, if_neg] at hres
      cases b with
      | none =>
        simp at hres
        simp [← hres.2, ht]
      | some bs =>
        cases hlb : lookup bs "build-backend" <;>
          simp only [hlb] at hres <;> simp at hres <;>
          simp [← hres.2, ht]
    · simp only [Bool.not_eq_true] at ht
      simp only [ht, Bool.not_false, if_pos] at hres
      simp at hres
      simp [← hres.2, ht]

/-- C8 witness. -/
theorem C8_witness :
    some ((PyVal.str defaultBackend : PyVal), ([] : List String))
        ≠ (Option.none : Option Pep517Data)
      ↔ optTruthy (some (PyVal.bool true)) = true :=
  C8_pep517_iff_enabled Option.none true false Option.none false "pkg"
    [] (some (PyVal.bool true)) (some defaultRequires)
    (some (PyVal.str defaultBackend, [])) rfl rfl

end PipPyproject

namespace PipPyproject

lemma resolve_tree_warning_region (b : Option BuildSystem)
    (hp hs : Bool) (u : Option PyVal) (e : Bool) (rn : String)
    (w : List String) (s : Option PyVal)
    (htree : resolve_tree b hp hs u e rn = Except.ok (w, s)) :
    w = [] ∨ (w = [editableBackendWarning rn] ∧ e = true ∧
      bsHasBackend b = true ∧ u ≠ Option.none ∧
      optTruthy u = false) := by
  cases u with
  | none =>
    unfold resolve_tree at htree
    simp only [optTruthy, isExplicitFalse, Option.isNone] at htree
    split_ifs at htree <;> simp_all
  | some v =>
    by_cases hv : truthy v = true
    · unfold resolve_tree at htree
      simp only [optTruthy, isExplicitFalse, Option.isNone, hv] at htree
      split_ifs at htree <;> simp_all
    · simp only [Bool.not_eq_true] at hv
      unfold resolve_tree at htree
      simp only [optTruthy, isExplicitFalse, Option.isNone, hv] at htree
      split_ifs at htree <;>
        first
          | (simp_all; done)
          | (refine Or.inr ?_
             have h' : [editableBackendWarning rn] = w ∧ some v = s := by
               simpa using htree
             exact ⟨h'.1.symm, by assumption, by assumption, by simp,
               by simp [optTruthy, hv]⟩)

lemma resolve_fst_eq (b : Option BuildSystem) (hp hs : Bool)
    (u : Option PyVal) (e : Bool) (rn : String)
    (w : List String) (s : Option PyVal)
    (htree : resolve_tree b hp hs u e rn = Except.ok (w, s)) :
    (resolve_pyproject_toml b hp hs u e rn).1 = w := by
  simp only [resolve_pyproject_toml, htree]
  cases hg : get_build_system_requires b rn <;> simp only [hg]
  all_goals
    first
      | rfl
      | (split <;> first
          | rfl
          | (split <;> first
              | rfl
              | (split <;> rfl)))

/-- C4 (amended): with a declared backend, setup.py present, editable
requested and the PEP 517 flag explicitly disabled, a declaration
passing requires-validation yields exactly the editable-mode warning
and the legacy result without raising; moreover a non-empty warning
list arises only when editable is true, a backend is declared and the
flag is a non-`None` falsy value, and the only possible warning is
that message.  (Within the claimed region the call can still raise
after the warning when `requires` is missing or malformed — see the
counterexample.) -/
theorem C4_warning_exactly_on_editable_optout :
    (∀ (bs : BuildSystem) (hp : Bool) (v : PyVal) (rn : String)
        (r : Option (List String)),
      hasKey bs "build-backend" = true → truthy v = false →
      get_build_system_requires (some bs) rn = Except.ok r →
      resolve_pyproject_toml (some bs) hp true (some v) true rn
        = ([editableBackendWarning rn], Except.ok (r, Option.none))) ∧
    (∀ (b : Option BuildSystem) (hp hs : Bool) (u : Option PyVal)
        (e : Bool) (rn : String),
      (resolve_pyproject_toml b hp hs u e rn).1 ≠ [] →
      e = true ∧ bsHasBackend b = true ∧ u ≠ Option.none ∧
        optTruthy u = false ∧
        (resolve_pyproject_toml b hp hs u e rn).1
          = [editableBackendWarning rn]) := by
  constructor
  · intro bs hp v rn r hkey hv hok
    have hbs : bsHasBackend (some bs) = true := by
      simp [bsHasBackend, hasKey_isEmpty_false hkey, hkey]
    simp [resolve_pyproject_toml, resolve_tree, hbs, optTruthy, hv, hok,
      isExplicitFalse]
  · intro b hp hs u e rn hw
    cases htree : resolve_tree b hp hs u e rn with
    | error er => simp [resolve_pyproject_toml, htree] at hw
    | ok ws =>
      obtain ⟨w, s⟩ := ws
      have hfst := resolve_fst_eq b hp hs u e rn w s htree
      rcases resolve_tree_warning_region b hp hs u e rn w s htree with
        h | ⟨hwmsg, he, hbb, hun, hto⟩
      · rw [hfst, h] at hw
        exact absurd rfl hw
      · exact ⟨he, hbb, hun, hto, by rw [hfst, hwmsg]⟩

/-- C4 witness. -/
theorem C4_witness :
    resolve_pyproject_toml
        (some [("build-backend", PyVal.str "pkg:build"),
          ("requires", PyVal.list [PyVal.str "foo"])])
        true true (some (PyVal.bool false)) true "pkg"
      = ([editableBackendWarning "pkg"],
         Except.ok (some ["foo"], Option.none)) :=
  C4_warning_exactly_on_editable_optout.1
    [("build-backend", PyVal.str "pkg:build"),
      ("requires", PyVal.list [PyVal.str "foo"])]
    true (PyVal.bool false) "pkg" (some ["foo"]) rfl rfl rfl

/-- C4 counterexample: in the claimed region but with the `requires`
key missing, the warning is emitted and the call then raises the
missing-`requires` error, so the region does not uniformly return. -/
theorem C4_counterexample :
    resolve_pyproject_toml
        (some [("build-backend", PyVal.str "pkg:build")])
        true true (some (PyVal.bool false)) true "pkg"
      = ([editableBackendWarning "pkg"],
         Except.error (PipError.installationError
           (pep518ErrorMessage "pkg" missingRequiresReason))) ∧
    raised (resolve_pyproject_toml
        (some [("build-backend", PyVal.str "pkg:build")])
        true true (some (PyVal.bool false)) true "pkg") = true :=
  ⟨rfl, rfl⟩

/-- C9: a non-`None` falsy `use_pep517` value (such as the integer 0
produced by strtobool-based configuration) makes the call behave
exactly as the boolean `False` does, for every combination of the
other inputs. -/
theorem C9_falsy_flag_is_explicit_disable (b : Option BuildSystem)
    (hp hs : Bool) (e : Bool) (rn : String) (v : PyVal)
    (hv : truthy v = false) :
    resolve_pyproject_toml b hp hs (some v) e rn
      = resolve_pyproject_toml b hp hs (some (PyVal.bool false)) e rn := by
  have key : resolve_tree b hp hs (some v) e rn
        = resolve_tree b hp hs (some (PyVal.bool false)) e rn ∨
      (resolve_tree b hp hs (some v) e rn
          = Except.ok ([editableBackendWarning rn], some v) ∧
        resolve_tree b hp hs (some (PyVal.bool false)) e rn
          = Except.ok ([editableBackendWarning rn],
              some (PyVal.bool false))) ∨
      (resolve_tree b hp hs (some v) e rn = Except.ok ([], some v) ∧
        resolve_tree b hp hs (some (PyVal.bool false)) e rn
          = Except.ok ([], some (PyVal.bool false))) := by
    by_cases he : e <;> by_cases hps : (hp && !hs) = true <;>
      cases hbb : bsHasBackend b <;>
      simp [resolve_tree, optTruthy, isExplicitFalse, hv, he, hps, hbb] <;>
      tauto
  rcases key with h | ⟨h1, h2⟩ | ⟨h1, h2⟩
  · unfold resolve_pyproject_toml
    rw [h]
  · unfold resolve_pyproject_toml
    rw [h1, h2]
    cases hg : get_build_system_requires b rn <;>
      simp [hg, optTruthy, hv,
        show truthy (PyVal.bool false) = false from rfl]
  · unfold resolve_pyproject_toml
    rw [h1, h2]
    cases hg : get_build_system_requires b rn <;>
      simp [hg, optTruthy, hv,
        show truthy (PyVal.bool false) = false from rfl]

/-- C9 witness. -/
theorem C9_witness :
    resolve_pyproject_toml Option.none true true (some (PyVal.int 0))
        false "pkg"
      = resolve_pyproject_toml Option.none true true
        (some (PyVal.bool false)) false "pkg" :=
  C9_falsy_flag_is_explicit_disable Option.none true true false "pkg"
    (PyVal.int 0) rfl

end PipPyproject
